import Mathlib

/-!
# Verification of `awsarch2tikz` (src/src/lib.rs)

Shallow embedding of the SVG-path-to-TikZ translator.  Rust `f32`
coordinates are modelled as rationals (every finite `f32` is a rational);
Rust panics (`unwrap`, out-of-bounds indexing, explicit `panic!`) are
modelled as an explicit `RustPanic` channel, kept distinct from the
`anyhow::Result` error channel that `parse_svg` actually returns, because
a panic aborts the process and is never surfaced as a return value.
-/

/-- Digit characters of a natural number, most significant first, with
explicit recursion fuel (any fuel above `n` suffices). -/
def natDigitsAux : Nat → Nat → List Char
  | 0, _ => []
  | fuel + 1, n =>
      if n < 10 then [Nat.digitChar n]
      else natDigitsAux fuel (n / 10) ++ [Nat.digitChar (n % 10)]

/-- Digit characters of a natural number, most significant first
(the standard decimal printing used by Rust `Display` for the integral
part of a number). -/
def natDigits (n : Nat) : List Char :=
  natDigitsAux (n + 1) n

def natStr (n : Nat) : String :=
  String.mk (natDigits n)

/-- Zero-padded four-digit decimal rendering of `k % 10000`: the
fractional part of the Rust fixed-precision `{:.4}` format. -/
def pad4 (k : Nat) : String :=
  String.mk [Nat.digitChar (k / 1000 % 10), Nat.digitChar (k / 100 % 10),
             Nat.digitChar (k / 10 % 10), Nat.digitChar (k % 10)]

/-- Floor of a rational as an integer (`Int.fdiv` is flooring division
and `q.den` is positive). -/
def ratFloor (q : ℚ) : ℤ :=
  q.num.fdiv q.den

/-- Round to the nearest integer, ties to even: the rounding the Rust
float formatting applies to the exact value when a precision is given. -/
def roundHalfEven (q : ℚ) : ℤ :=
  let fl := ratFloor q
  let r := q - (fl : ℚ)
  if r < 1 / 2 then fl
  else if 1 / 2 < r then fl + 1
  else if fl % 2 = 0 then fl else fl + 1

/-- Model of the Rust `format!("{:.4}", v)` on a finite float value `q`:
sign, decimal integral part, a point, then exactly four fractional
digits, in fixed-point (never scientific) notation. -/
def fmt4 (q : ℚ) : String :=
  let a : ℚ := if q < 0 then -q else q
  let m : Nat := (roundHalfEven (a * 10000)).toNat
  ((if q < 0 then "-" else "") ++ natStr (m / 10000)) ++ ("." ++ pad4 (m % 10000))

/-- Embeds `struct Point(f32, f32)` (lib.rs line 57). -/
structure Point where
  x : ℚ
  y : ℚ
deriving DecidableEq, Repr

/-- Embeds `impl Display for Point` (lib.rs lines 59-63):
`write!(f, "({:.4}, {:.4})", self.0, self.1)`. -/
def Point.display (p : Point) : String :=
  "(" ++ fmt4 p.x ++ ", " ++ fmt4 p.y ++ ")"

/-- Embeds `enum PathSection` (lib.rs lines 65-70). -/
inductive PathSection where
  | move (p : Point)
  | line (p : Point)
  | curve (c1 c2 p : Point)
  | cycle
deriving DecidableEq, Repr

/-- Embeds `impl Display for PathSection` (lib.rs lines 72-81). -/
def PathSection.display : PathSection → String
  | .move p => p.display
  | .line p => "--" ++ p.display
  | .curve c1 c2 p => ".. controls " ++ c1.display ++ " and " ++ c2.display ++ " .. " ++ p.display
  | .cycle => "--cycle"

/-- Embeds `enum Attribute` (lib.rs lines 12-15). -/
inductive Attribute where
  | setting (s : String)
  | param (k v : String)
deriving DecidableEq, Repr

/-- Embeds `impl Display for Attribute` (lib.rs lines 27-34). -/
def Attribute.display : Attribute → String
  | .setting s => s
  | .param k v => k ++ "=" ++ v

/-- Embeds `attributes_to_tikz` (lib.rs lines 36-42): render each attribute and
join with `,` (Rust `Vec::join(",")` is `String.intercalate ","`). -/
def attributes_to_tikz (attrs : List Attribute) : String :=
  String.intercalate "," (attrs.map Attribute.display)

/-- Embeds `struct TikzDraw` (lib.rs lines 6-10). -/
structure TikzDraw where
  attributes : List Attribute
  path_sections : List PathSection
deriving DecidableEq, Repr

/-- Embeds `impl Display for TikzDraw` (lib.rs lines 44-55):
`write!(f, "\draw[{}] {} ;", attrs, path)` where `path` is the
space-joined section renderings. -/
def TikzDraw.display (t : TikzDraw) : String :=
  "\\draw[" ++ attributes_to_tikz t.attributes ++ "] "
    ++ String.intercalate " " (t.path_sections.map PathSection.display) ++ " ;"

/-- Embeds `svg::node::element::path::Position` from the external `svg` crate. -/
inductive Position where
  | absolute
  | relative
deriving DecidableEq, Repr

/-- Embeds `svg::node::element::path::Command` from the external `svg` crate:
shape tag, position mode, numeric parameter list (`Vec<f32>`). -/
inductive Command where
  | move (pos : Position) (params : List ℚ)
  | line (pos : Position) (params : List ℚ)
  | horizontalLine (pos : Position) (params : List ℚ)
  | verticalLine (pos : Position) (params : List ℚ)
  | quadraticCurve (pos : Position) (params : List ℚ)
  | smoothQuadraticCurve (pos : Position) (params : List ℚ)
  | cubicCurve (pos : Position) (params : List ℚ)
  | smoothCubicCurve (pos : Position) (params : List ℚ)
  | ellipticalArc (pos : Position) (params : List ℚ)
  | close
deriving DecidableEq, Repr

/-- The ways the translated code can panic.  A Rust panic terminates the
process (it is never returned to the caller as a value); each
constructor records which panic site fired and what data its message
carries. -/
inductive RustPanic where
  /-- The explicit `panic!("not yet supported: {:?}", cmd)` in `PathSection::from_svg`
  (lib.rs line 94); the message carries the offending command. -/
  | notYetSupported (cmd : Command)
  /-- Out-of-bounds `Vec` indexing `params[i]` (lib.rs lines 86-91). -/
  | indexOutOfBounds
  /-- An `Option::unwrap` on `None`: `attrs.get("d").unwrap()` (lib.rs line 112). -/
  | unwrapNone
  /-- A `Result::unwrap` on `Err`: `Data::parse(data).unwrap()` (lib.rs line 113). -/
  | unwrapErr
deriving DecidableEq, Repr

/-- Rust `params[i]` on a `Vec`: the value when `i` is in bounds, a
panic otherwise (no bounds check in the source). -/
def vecIndex (params : List ℚ) (i : Nat) : Except RustPanic ℚ :=
  match params.get? i with
  | some v => .ok v
  | none => .error .indexOutOfBounds

/-- Embeds `PathSection::from_svg` (lib.rs lines 83-97).  Only the four match
arms of the source are supported; every other command hits the
`panic!("not yet supported: ...")` arm.  Indexing into the parameter
list is unchecked in the source, hence the `vecIndex` panics. -/
def PathSection.from_svg (cmd : Command) : Except RustPanic PathSection :=
  match cmd with
  | .move .absolute params => do
      let x ← vecIndex params 0
      let y ← vecIndex params 1
      pure (.move ⟨x, y⟩)
  | .line .absolute params => do
      let x ← vecIndex params 0
      let y ← vecIndex params 1
      pure (.line ⟨x, y⟩)
  | .cubicCurve .absolute params => do
      let x1 ← vecIndex params 0
      let y1 ← vecIndex params 1
      let x2 ← vecIndex params 2
      let y2 ← vecIndex params 3
      let x ← vecIndex params 4
      let y ← vecIndex params 5
      pure (.curve ⟨x1, y1⟩ ⟨x2, y2⟩ ⟨x, y⟩)
  | .close => pure .cycle
  | c => .error (.notYetSupported c)

/-- Embeds `data.iter().map(PathSection::from_svg).collect()` (lib.rs
line 114): the first panicking element aborts the whole collection. -/
def collectSections : List Command → Except RustPanic (List PathSection)
  | [] => .ok []
  | c :: cs =>
      match PathSection.from_svg c with
      | .error p => .error p
      | .ok s =>
          match collectSections cs with
          | .error p => .error p
          | .ok ss => .ok (s :: ss)

/-- One event of the external scanner `svg::read` (lib.rs line 107): a
tagged node with its string-keyed attribute map, or any other content
(text, comments, ...), which the source ignores with `_ => {}`. -/
inductive Event where
  | tag (name : String) (attrs : List (String × String))
  | other
deriving DecidableEq, Repr

/-- Whether an event is a path-bearing node: the source matches
`Event::Tag(tag::Path, _, attrs)` where `tag::Path` is `"path"`. -/
def Event.isPathTag : Event → Bool
  | .tag n _ => n == "path"
  | .other => false

/-- Embeds `attrs.get("d")` on the scanner string-keyed attribute map. -/
def attrsGet (attrs : List (String × String)) (k : String) : Option String :=
  (attrs.find? (fun kv => kv.1 == k)).map (fun kv => kv.2)

/-- Errors the `anyhow::Result` return channel of `parse_svg` can
actually carry: the two `?` propagations on reading the input and on
`svg::read` (lib.rs lines 101 and 107). -/
inductive AnyhowErr where
  | inputReadFailure
  | documentParseFailure
deriving DecidableEq, Repr

/-- The observable outcome of one call to `parse_svg`: a process-aborting
panic, a returned `Err` value, or a returned `Ok` value. -/
inductive TransOutcome where
  | panicked (p : RustPanic)
  | errored (e : AnyhowErr)
  | ok (t : TikzDraw)
deriving DecidableEq, Repr

/-- Whether an outcome is a failure value returned to the caller
(`Err(..)` of its `anyhow::Result`), as opposed to a panic
or a success. -/
def TransOutcome.returnsFailureValue : TransOutcome → Bool
  | .errored _ => true
  | _ => false

/-- The hard-coded attribute pushes of `parse_svg` (lib.rs lines 103-105),
in push order. -/
def fixedAttributes : List Attribute :=
  [.setting "fill", .setting "even odd rule", .param "line width" "1"]

/-- The scan loop of `parse_svg` (lib.rs lines 107-119): skip events
until the first path tag; there, `unwrap` the `d` attribute, `unwrap`
the external path-data parse `pd`, map the commands through the adapter
and `break`.  Reaching the end of the stream leaves the section list
empty. -/
def scanLoop (pd : String → Option (List Command)) :
    List Event → Except RustPanic (List PathSection)
  | [] => .ok []
  | .tag n attrs :: rest =>
      if n == "path" then
        match attrsGet attrs "d" with
        | none => .error .unwrapNone
        | some d =>
            match pd d with
            | none => .error .unwrapErr
            | some cmds => collectSections cmds
      else scanLoop pd rest
  | .other :: rest => scanLoop pd rest

/-- Embeds `parse_svg` (lib.rs lines 99-122), taking the external reader and
scanner output as `scanned` (an `Err` there models a `?` propagation of
`read_to_string` or `svg::read`) and the external path-data parser as
`pd` (`Data::parse`).  On success the returned `TikzDraw` holds the
fixed attributes and the sections of the first path node, if any. -/
def parse_svg (pd : String → Option (List Command))
    (scanned : Except AnyhowErr (List Event)) : TransOutcome :=
  match scanned with
  | .error e => .errored e
  | .ok events =>
      match scanLoop pd events with
      | .error p => .panicked p
      | .ok secs => .ok { attributes := fixedAttributes, path_sections := secs }

/-- The commands matched by the four supported arms of
`PathSection::from_svg`; every other command falls into the
`panic!` catch-all arm. -/
def Command.isSupported : Command → Bool
  | .move .absolute _ => true
  | .line .absolute _ => true
  | .cubicCurve .absolute _ => true
  | .close => true
  | _ => false

/-- A concrete external path-data parser that always fails, for
instantiating universally quantified statements. -/
def pdNone : String → Option (List Command) :=
  fun _ => none

/-- A concrete external path-data parser returning a single
relative-positioned move command (what `Data::parse` produces for the
path data `m 1,2`), for instantiating universally quantified
statements. -/
def pdRel : String → Option (List Command) :=
  fun _ => some [Command.move .relative [1, 2]]

/-- A concrete external path-data parser returning the command
sequence `Data::parse` produces for the path data `M0,0 L10,10 Z`. -/
def pdTriangle : String → Option (List Command) :=
  fun _ => some [Command.move .absolute [0, 0], Command.line .absolute [10, 10], Command.close]

theorem digitChar_isDigit {d : Nat} (h : d < 10) : (Nat.digitChar d).isDigit = true := by
  interval_cases d <;> decide

theorem natDigitsAux_isDigit (fuel : Nat) :
    ∀ n c, c ∈ natDigitsAux fuel n → c.isDigit = true := by
  induction fuel with
  | zero => intro n c hc; simp [natDigitsAux] at hc
  | succ fuel ih =>
    intro n c hc
    rw [natDigitsAux] at hc
    by_cases h : n < 10
    · rw [if_pos h] at hc
      simp only [List.mem_singleton] at hc
      exact hc ▸ digitChar_isDigit h
    · rw [if_neg h] at hc
      rcases List.mem_append.mp hc with h1 | h2
      · exact ih _ c h1
      · simp only [List.mem_singleton] at h2
        exact h2 ▸ digitChar_isDigit (Nat.mod_lt _ (by norm_num))

theorem natDigits_isDigit {n : Nat} {c : Char} (hc : c ∈ natDigits n) : c.isDigit = true :=
  natDigitsAux_isDigit (n + 1) n c hc

theorem ratFloor_natCast (k : Nat) : ratFloor (k : ℚ) = k := by
  unfold ratFloor
  rw [Rat.num_natCast, Rat.den_natCast]
  simp [Int.fdiv_one]

theorem roundHalfEven_natCast (k : Nat) : roundHalfEven (k : ℚ) = k := by
  simp only [roundHalfEven, ratFloor_natCast]
  have h : ((k : ℚ)) - ((k : ℤ) : ℚ) = 0 := by push_cast; ring
  rw [h, if_pos (by norm_num)]

theorem fmt4_natCast (n : Nat) : fmt4 (n : ℚ) = natStr n ++ ".0000" := by
  have h1 : ¬ ((n : ℚ) < 0) := not_lt.mpr (by positivity)
  simp only [fmt4, if_neg h1]
  have h2 : (n : ℚ) * 10000 = ((n * 10000 : Nat) : ℚ) := by push_cast; ring
  rw [h2, roundHalfEven_natCast, Int.toNat_natCast]
  rw [Nat.mul_div_cancel _ (by norm_num : 0 < 10000)]
  rw [Nat.mul_mod_left]
  rfl

/-- Evaluation helper for `fmt4` at small nonnegative integer values. -/
theorem fmt4_eval (n : Nat) (q : ℚ) (hq : q = (n : ℚ)) (s : String)
    (hs : natStr n ++ ".0000" = s) : fmt4 q = s := by
  rw [hq, fmt4_natCast, hs]

theorem scanLoop_no_path (pd : String → Option (List Command)) :
    ∀ events : List Event, events.all (fun e => ! e.isPathTag) = true →
      scanLoop pd events = .ok [] := by
  intro events
  induction events with
  | nil => intro h; rfl
  | cons e rest ih =>
    intro h
    simp only [List.all_cons, Bool.and_eq_true] at h
    obtain ⟨h1, h2⟩ := h
    cases e with
    | other => simpa [scanLoop] using ih h2
    | tag n attrs =>
      have hn : (n == "path") = false := by
        simpa [Event.isPathTag] using h1
      simpa [scanLoop, hn] using ih h2

theorem scanLoop_skip (pd : String → Option (List Command)) :
    ∀ (pre evs : List Event), pre.all (fun e => ! e.isPathTag) = true →
      scanLoop pd (pre ++ evs) = scanLoop pd evs := by
  intro pre
  induction pre with
  | nil => intro evs _; rfl
  | cons e rest ih =>
    intro evs h
    simp only [List.all_cons, Bool.and_eq_true] at h
    obtain ⟨h1, h2⟩ := h
    cases e with
    | other => simpa [scanLoop] using ih evs h2
    | tag n attrs =>
      have hn : (n == "path") = false := by
        simpa [Event.isPathTag] using h1
      simpa [scanLoop, hn] using ih evs h2

theorem from_svg_not_supported (cmd : Command) (h : cmd.isSupported = false) :
    PathSection.from_svg cmd = .error (.notYetSupported cmd) := by
  cases cmd with
  | move pos params => cases pos with
    | absolute => simp [Command.isSupported] at h
    | relative => rfl
  | line pos params => cases pos with
    | absolute => simp [Command.isSupported] at h
    | relative => rfl
  | cubicCurve pos params => cases pos with
    | absolute => simp [Command.isSupported] at h
    | relative => rfl
  | close => simp [Command.isSupported] at h
  | horizontalLine pos params => rfl
  | verticalLine pos params => rfl
  | quadraticCurve pos params => rfl
  | smoothQuadraticCurve pos params => rfl
  | smoothCubicCurve pos params => rfl
  | ellipticalArc pos params => rfl

theorem collectSections_error {cmds : List Command} {c : Command}
    (hc : c ∈ cmds) {p0 : RustPanic} (h : PathSection.from_svg c = .error p0) :
    ∃ p, collectSections cmds = .error p := by
  induction cmds with
  | nil => cases hc
  | cons d ds ih =>
    cases hd : PathSection.from_svg d with
    | error p => exact ⟨p, by simp [collectSections, hd]⟩
    | ok s =>
      rcases List.mem_cons.mp hc with rfl | hmem
      · rw [h] at hd; cases hd
      · obtain ⟨p, hp⟩ := ih hmem
        exact ⟨p, by simp [collectSections, hd, hp]⟩

theorem pad4_digits (k : Nat) : (pad4 k).toList.all Char.isDigit = true := by
  have h : ∀ m : Nat, (Nat.digitChar (m % 10)).isDigit = true :=
    fun m => digitChar_isDigit (Nat.mod_lt _ (by norm_num))
  show ([Nat.digitChar (k / 1000 % 10), Nat.digitChar (k / 100 % 10),
         Nat.digitChar (k / 10 % 10), Nat.digitChar (k % 10)].all Char.isDigit) = true
  simp [List.all_cons, h]

theorem dot_not_mem_sign_natStr (q : ℚ) (t : Nat) :
    '.' ∉ ((if q < 0 then "-" else "") ++ natStr t).toList := by
  intro h
  have hd : '.' ∈ (if q < 0 then "-" else "").data ++ natDigits t := by
    simpa [String.toList, natStr, String.data_append] using h
  rcases List.mem_append.mp hd with h1 | h2
  · by_cases hq : q < 0
    · rw [if_pos hq] at h1
      simp only [List.mem_singleton] at h1
      exact absurd h1 (by decide)
    · rw [if_neg hq] at h1
      simp at h1
  · exact absurd (natDigits_isDigit h2) (by decide)

/-- C3: the Command Adapter maps each supported absolute command to
exactly one PathSection per the table (move to Move, line to Line,
cubic-curve to Curve with the six parameters in order, close to Cycle),
and for the path data `M0,0 L10,10 Z` the rendered section-list is
`(0.0000, 0.0000) --(10.0000, 10.0000) --cycle`. -/
theorem c3_command_adapter_table :
    (∀ x y : ℚ, PathSection.from_svg (.move .absolute [x, y]) = .ok (.move ⟨x, y⟩))
  ∧ (∀ x y : ℚ, PathSection.from_svg (.line .absolute [x, y]) = .ok (.line ⟨x, y⟩))
  ∧ (∀ x1 y1 x2 y2 x y : ℚ,
      PathSection.from_svg (.cubicCurve .absolute [x1, y1, x2, y2, x, y])
        = .ok (.curve ⟨x1, y1⟩ ⟨x2, y2⟩ ⟨x, y⟩))
  ∧ PathSection.from_svg .close = .ok .cycle
  ∧ collectSections [.move .absolute [0, 0], .line .absolute [10, 10], .close]
      = .ok [.move ⟨0, 0⟩, .line ⟨10, 10⟩, .cycle]
  ∧ String.intercalate " "
      ([PathSection.move ⟨0, 0⟩, .line ⟨10, 10⟩, .cycle].map PathSection.display)
      = "(0.0000, 0.0000) --(10.0000, 10.0000) --cycle" := by
  refine ⟨fun x y => rfl, fun x y => rfl, fun x1 y1 x2 y2 x y => rfl, rfl, rfl, ?_⟩
  have h0 : fmt4 (0 : ℚ) = "0.0000" := fmt4_eval 0 (0 : ℚ) (by norm_num) "0.0000" (by decide)
  have h10 : fmt4 (10 : ℚ) = "10.0000" := fmt4_eval 10 (10 : ℚ) (by norm_num) "10.0000" (by decide)
  simp only [List.map_cons, List.map_nil, PathSection.display, Point.display, h0, h10]
  decide

/-- C4: a populated Draw Statement renders as `\draw[` + comma-joined
attribute texts + `] ` + space-joined PathSection texts in sequence
order + ` ;`; with an empty PathSection sequence it still renders, with
an empty body between the closing bracket and the terminator. -/
theorem c4_draw_statement_render :
    ∀ (attrs : List Attribute) (secs : List PathSection),
      TikzDraw.display ⟨attrs, secs⟩
          = "\\draw[" ++ String.intercalate "," (attrs.map Attribute.display) ++ "] "
            ++ String.intercalate " " (secs.map PathSection.display) ++ " ;"
        ∧ TikzDraw.display ⟨attrs, []⟩
          = "\\draw[" ++ String.intercalate "," (attrs.map Attribute.display) ++ "]  ;" := by
  intro attrs secs
  constructor
  · rfl
  · show ((("\\draw[" ++ String.intercalate "," (attrs.map Attribute.display)) ++ "] ")
        ++ "") ++ " ;"
      = ("\\draw[" ++ String.intercalate "," (attrs.map Attribute.display)) ++ "]  ;"
    rw [String.append_empty, String.append_assoc]
    congr 1

/-- C5: on a document with no path-bearing node, translation succeeds
with the hard-coded attribute set (fill, even odd rule, line width=1,
in that order) and an empty section sequence, and the rendered output
is exactly the degenerate draw statement. -/
theorem c5_no_path_node :
    ∀ (pd : String → Option (List Command)) (events : List Event),
      events.all (fun e => ! e.isPathTag) = true →
      parse_svg pd (.ok events) = .ok ⟨fixedAttributes, []⟩
      ∧ TikzDraw.display ⟨fixedAttributes, []⟩
          = "\\draw[fill,even odd rule,line width=1]  ;" := by
  intro pd events h
  constructor
  · have hs : scanLoop pd events = .ok [] := scanLoop_no_path pd events h
    simp [parse_svg, hs]
  · decide

theorem c5_no_path_node_witness :
    ([Event.other, Event.tag "rect" [("width", "3")]].all (fun e => ! e.isPathTag) = true)
    ∧ (parse_svg pdNone (.ok [Event.other, Event.tag "rect" [("width", "3")]])
        = .ok ⟨fixedAttributes, []⟩
      ∧ TikzDraw.display ⟨fixedAttributes, []⟩
          = "\\draw[fill,even odd rule,line width=1]  ;") :=
  ⟨by decide, c5_no_path_node pdNone [Event.other, Event.tag "rect" [("width", "3")]] (by decide)⟩

/-- C6: for every pair of (finite float, modelled rational) coordinates,
the rendered Point text is `(x, y)` where each component is an optional
sign and integral digits, a decimal point, then exactly four digits,
in fixed-point notation, independent of magnitude and sign. -/
theorem c6_point_four_decimal_digits :
    ∀ x y : ℚ, ∃ g1 d1 g2 d2 : String,
      Point.display ⟨x, y⟩
          = "(" ++ (g1 ++ ("." ++ d1)) ++ ", " ++ (g2 ++ ("." ++ d2)) ++ ")"
        ∧ d1.length = 4 ∧ d2.length = 4
        ∧ d1.toList.all Char.isDigit = true ∧ d2.toList.all Char.isDigit = true
        ∧ '.' ∉ g1.toList ∧ '.' ∉ g2.toList := by
  intro x y
  exact ⟨(if x < 0 then "-" else "")
        ++ natStr ((roundHalfEven ((if x < 0 then -x else x) * 10000)).toNat / 10000),
      pad4 ((roundHalfEven ((if x < 0 then -x else x) * 10000)).toNat % 10000),
      (if y < 0 then "-" else "")
        ++ natStr ((roundHalfEven ((if y < 0 then -y else y) * 10000)).toNat / 10000),
      pad4 ((roundHalfEven ((if y < 0 then -y else y) * 10000)).toNat % 10000),
      rfl, rfl, rfl, pad4_digits _, pad4_digits _,
      dot_not_mem_sign_natStr x _, dot_not_mem_sign_natStr y _⟩

/-- C7: each PathSection variant renders per the fixed rules (Move as
the point text, Line as `--` + point, Curve as `.. controls c1 and c2
.. end` with the control points in source order, Cycle as `--cycle`),
and a cubic-curve command with parameters (1,2,3,4,5,6) renders as
`.. controls (1.0000, 2.0000) and (3.0000, 4.0000) .. (5.0000, 6.0000)`. -/
theorem c7_section_render_rules :
    (∀ p : Point, PathSection.display (.move p) = Point.display p)
  ∧ (∀ p : Point, PathSection.display (.line p) = "--" ++ Point.display p)
  ∧ (∀ c1 c2 p : Point, PathSection.display (.curve c1 c2 p)
      = ".. controls " ++ Point.display c1 ++ " and " ++ Point.display c2
        ++ " .. " ++ Point.display p)
  ∧ PathSection.display .cycle = "--cycle"
  ∧ PathSection.from_svg (.cubicCurve .absolute [1, 2, 3, 4, 5, 6])
      = .ok (.curve ⟨1, 2⟩ ⟨3, 4⟩ ⟨5, 6⟩)
  ∧ PathSection.display (.curve ⟨1, 2⟩ ⟨3, 4⟩ ⟨5, 6⟩)
      = ".. controls (1.0000, 2.0000) and (3.0000, 4.0000) .. (5.0000, 6.0000)" := by
  refine ⟨fun p => rfl, fun p => rfl, fun c1 c2 p => rfl, rfl, rfl, ?_⟩
  have h1 : fmt4 (1 : ℚ) = "1.0000" := fmt4_eval 1 (1 : ℚ) (by norm_num) "1.0000" (by decide)
  have h2 : fmt4 (2 : ℚ) = "2.0000" := fmt4_eval 2 (2 : ℚ) (by norm_num) "2.0000" (by decide)
  have h3 : fmt4 (3 : ℚ) = "3.0000" := fmt4_eval 3 (3 : ℚ) (by norm_num) "3.0000" (by decide)
  have h4 : fmt4 (4 : ℚ) = "4.0000" := fmt4_eval 4 (4 : ℚ) (by norm_num) "4.0000" (by decide)
  have h5 : fmt4 (5 : ℚ) = "5.0000" := fmt4_eval 5 (5 : ℚ) (by norm_num) "5.0000" (by decide)
  have h6 : fmt4 (6 : ℚ) = "6.0000" := fmt4_eval 6 (6 : ℚ) (by norm_num) "6.0000" (by decide)
  simp only [PathSection.display, Point.display, h1, h2, h3, h4, h5, h6]
  decide

/-- C8: on a document with two or more path-bearing nodes, the scan
stops at the first one (the `break`), so the outcome does not depend on
anything after the first path node; all later path-bearing nodes are
ignored. -/
theorem c8_first_path_only :
    ∀ (pd : String → Option (List Command)) (pre : List Event)
      (attrs : List (String × String)) (rest restAlt : List Event),
      pre.all (fun e => ! e.isPathTag) = true →
      parse_svg pd (.ok (pre ++ Event.tag "path" attrs :: rest))
        = parse_svg pd (.ok (pre ++ Event.tag "path" attrs :: restAlt)) := by
  intro pd pre attrs rest restAlt h
  have h1 := scanLoop_skip pd pre (Event.tag "path" attrs :: rest) h
  have h2 := scanLoop_skip pd pre (Event.tag "path" attrs :: restAlt) h
  have h3 : scanLoop pd (Event.tag "path" attrs :: rest)
      = scanLoop pd (Event.tag "path" attrs :: restAlt) := rfl
  simp only [parse_svg, h1, h2, h3]

theorem c8_first_path_only_witness :
    ([Event.other].all (fun e => ! e.isPathTag) = true)
    ∧ parse_svg pdTriangle
        (.ok ([Event.other] ++ Event.tag "path" [("d", "M0,0 L10,10 Z")]
          :: [Event.tag "path" [("d", "M5,5")]]))
      = parse_svg pdTriangle
        (.ok ([Event.other] ++ Event.tag "path" [("d", "M0,0 L10,10 Z")] :: [])) :=
  ⟨by decide, c8_first_path_only pdTriangle [Event.other] [("d", "M0,0 L10,10 Z")]
    [Event.tag "path" [("d", "M5,5")]] [] (by decide)⟩

/-- C9: the Command Adapter indexes the parameter list without bounds
checks: a move or line command with fewer than 2 parameters, or a
cubic-curve command with fewer than 6, hits the out-of-bounds-indexing
panic (not the unsupported-command path); with exactly the table arity
every index access is in bounds and one section is produced. -/
theorem c9_unchecked_indexing :
    ∀ params : List ℚ,
      (params.length < 2 →
        PathSection.from_svg (.move .absolute params) = .error .indexOutOfBounds
        ∧ PathSection.from_svg (.line .absolute params) = .error .indexOutOfBounds)
      ∧ (params.length < 6 →
        PathSection.from_svg (.cubicCurve .absolute params) = .error .indexOutOfBounds)
      ∧ (params.length = 2 →
        PathSection.from_svg (.move .absolute params)
            = .ok (.move ⟨params.getD 0 0, params.getD 1 0⟩)
        ∧ PathSection.from_svg (.line .absolute params)
            = .ok (.line ⟨params.getD 0 0, params.getD 1 0⟩))
      ∧ (params.length = 6 →
        PathSection.from_svg (.cubicCurve .absolute params)
          = .ok (.curve ⟨params.getD 0 0, params.getD 1 0⟩
              ⟨params.getD 2 0, params.getD 3 0⟩ ⟨params.getD 4 0, params.getD 5 0⟩)) := by
  intro params
  rcases params with _ | ⟨a, _ | ⟨b, _ | ⟨c, _ | ⟨d, _ | ⟨e, _ | ⟨f, rest⟩⟩⟩⟩⟩⟩
  · exact ⟨fun _ => ⟨rfl, rfl⟩, fun _ => rfl,
      fun h => by simp only [List.length_nil] at h; omega,
      fun h => by simp only [List.length_nil] at h; omega⟩
  · exact ⟨fun _ => ⟨rfl, rfl⟩, fun _ => rfl,
      fun h => by simp only [List.length_cons, List.length_nil] at h; omega,
      fun h => by simp only [List.length_cons, List.length_nil] at h; omega⟩
  · exact ⟨fun h => by simp only [List.length_cons, List.length_nil] at h; omega,
      fun _ => rfl, fun _ => ⟨rfl, rfl⟩,
      fun h => by simp only [List.length_cons, List.length_nil] at h; omega⟩
  · exact ⟨fun h => by simp only [List.length_cons, List.length_nil] at h; omega,
      fun _ => rfl,
      fun h => by simp only [List.length_cons, List.length_nil] at h; omega,
      fun h => by simp only [List.length_cons, List.length_nil] at h; omega⟩
  · exact ⟨fun h => by simp only [List.length_cons, List.length_nil] at h; omega,
      fun _ => rfl,
      fun h => by simp only [List.length_cons, List.length_nil] at h; omega,
      fun h => by simp only [List.length_cons, List.length_nil] at h; omega⟩
  · exact ⟨fun h => by simp only [List.length_cons, List.length_nil] at h; omega,
      fun _ => rfl,
      fun h => by simp only [List.length_cons, List.length_nil] at h; omega,
      fun h => by simp only [List.length_cons, List.length_nil] at h; omega⟩
  · refine ⟨fun h => by simp only [List.length_cons] at h; omega,
      fun h => by simp only [List.length_cons] at h; omega,
      fun h => by simp only [List.length_cons] at h; omega,
      fun h => ?_⟩
    have hr : rest = [] := List.length_eq_zero.mp
      (by simp only [List.length_cons] at h; omega)
    subst hr
    rfl

theorem c9_unchecked_indexing_witness :
    ((([5] : List ℚ).length < 2
      ∧ (PathSection.from_svg (.move .absolute ([5] : List ℚ)) = .error .indexOutOfBounds
        ∧ PathSection.from_svg (.line .absolute ([5] : List ℚ)) = .error .indexOutOfBounds)))
    ∧ ((([1, 2, 3, 4] : List ℚ).length < 6)
      ∧ PathSection.from_svg (.cubicCurve .absolute ([1, 2, 3, 4] : List ℚ))
          = .error .indexOutOfBounds)
    ∧ ((([1, 2] : List ℚ).length = 2)
      ∧ (PathSection.from_svg (.move .absolute ([1, 2] : List ℚ))
            = .ok (.move ⟨([1, 2] : List ℚ).getD 0 0, ([1, 2] : List ℚ).getD 1 0⟩)
        ∧ PathSection.from_svg (.line .absolute ([1, 2] : List ℚ))
            = .ok (.line ⟨([1, 2] : List ℚ).getD 0 0, ([1, 2] : List ℚ).getD 1 0⟩)))
    ∧ ((([1, 2, 3, 4, 5, 6] : List ℚ).length = 6)
      ∧ PathSection.from_svg (.cubicCurve .absolute ([1, 2, 3, 4, 5, 6] : List ℚ))
          = .ok (.curve
              ⟨([1, 2, 3, 4, 5, 6] : List ℚ).getD 0 0, ([1, 2, 3, 4, 5, 6] : List ℚ).getD 1 0⟩
              ⟨([1, 2, 3, 4, 5, 6] : List ℚ).getD 2 0, ([1, 2, 3, 4, 5, 6] : List ℚ).getD 3 0⟩
              ⟨([1, 2, 3, 4, 5, 6] : List ℚ).getD 4 0,
                ([1, 2, 3, 4, 5, 6] : List ℚ).getD 5 0⟩)) :=
  ⟨⟨by decide, (c9_unchecked_indexing [5]).1 (by decide)⟩,
   ⟨by decide, (c9_unchecked_indexing [1, 2, 3, 4]).2.1 (by decide)⟩,
   ⟨by decide, (c9_unchecked_indexing [1, 2]).2.2.1 (by decide)⟩,
   ⟨by decide, (c9_unchecked_indexing [1, 2, 3, 4, 5, 6]).2.2.2 (by decide)⟩⟩

/-- C10: a supported absolute command with more parameters than its
table arity still produces exactly one PathSection, built from the
first 2 (move, line) or first 6 (cubic-curve) parameters only; the
extra parameters are silently discarded. -/
theorem c10_extra_params_discarded :
    ∀ params : List ℚ,
      (2 ≤ params.length →
        ∃ s, PathSection.from_svg (.move .absolute params) = .ok s
          ∧ PathSection.from_svg (.move .absolute (params.take 2)) = .ok s)
      ∧ (2 ≤ params.length →
        ∃ s, PathSection.from_svg (.line .absolute params) = .ok s
          ∧ PathSection.from_svg (.line .absolute (params.take 2)) = .ok s)
      ∧ (6 ≤ params.length →
        ∃ s, PathSection.from_svg (.cubicCurve .absolute params) = .ok s
          ∧ PathSection.from_svg (.cubicCurve .absolute (params.take 6)) = .ok s) := by
  intro params
  rcases params with _ | ⟨a, _ | ⟨b, _ | ⟨c, _ | ⟨d, _ | ⟨e, _ | ⟨f, rest⟩⟩⟩⟩⟩⟩
  · exact ⟨fun h => by simp only [List.length_nil] at h; omega,
      fun h => by simp only [List.length_nil] at h; omega,
      fun h => by simp only [List.length_nil] at h; omega⟩
  · exact ⟨fun h => by simp only [List.length_cons, List.length_nil] at h; omega,
      fun h => by simp only [List.length_cons, List.length_nil] at h; omega,
      fun h => by simp only [List.length_cons, List.length_nil] at h; omega⟩
  · exact ⟨fun _ => ⟨.move ⟨a, b⟩, rfl, rfl⟩, fun _ => ⟨.line ⟨a, b⟩, rfl, rfl⟩,
      fun h => by simp only [List.length_cons, List.length_nil] at h; omega⟩
  · exact ⟨fun _ => ⟨.move ⟨a, b⟩, rfl, rfl⟩, fun _ => ⟨.line ⟨a, b⟩, rfl, rfl⟩,
      fun h => by simp only [List.length_cons, List.length_nil] at h; omega⟩
  · exact ⟨fun _ => ⟨.move ⟨a, b⟩, rfl, rfl⟩, fun _ => ⟨.line ⟨a, b⟩, rfl, rfl⟩,
      fun h => by simp only [List.length_cons, List.length_nil] at h; omega⟩
  · exact ⟨fun _ => ⟨.move ⟨a, b⟩, rfl, rfl⟩, fun _ => ⟨.line ⟨a, b⟩, rfl, rfl⟩,
      fun h => by simp only [List.length_cons, List.length_nil] at h; omega⟩
  · exact ⟨fun _ => ⟨.move ⟨a, b⟩, rfl, rfl⟩, fun _ => ⟨.line ⟨a, b⟩, rfl, rfl⟩,
      fun _ => ⟨.curve ⟨a, b⟩ ⟨c, d⟩ ⟨e, f⟩, rfl, rfl⟩⟩

theorem c10_extra_params_discarded_witness :
    ((2 ≤ ([1, 2, 9] : List ℚ).length)
      ∧ ∃ s, PathSection.from_svg (.move .absolute ([1, 2, 9] : List ℚ)) = .ok s
          ∧ PathSection.from_svg (.move .absolute (([1, 2, 9] : List ℚ).take 2)) = .ok s)
    ∧ ((6 ≤ ([1, 2, 3, 4, 5, 6, 7, 8] : List ℚ).length)
      ∧ ∃ s, PathSection.from_svg (.cubicCurve .absolute ([1, 2, 3, 4, 5, 6, 7, 8] : List ℚ))
            = .ok s
          ∧ PathSection.from_svg
              (.cubicCurve .absolute (([1, 2, 3, 4, 5, 6, 7, 8] : List ℚ).take 6)) = .ok s) :=
  ⟨⟨by decide, (c10_extra_params_discarded [1, 2, 9]).1 (by decide)⟩,
   ⟨by decide, (c10_extra_params_discarded [1, 2, 3, 4, 5, 6, 7, 8]).2.2 (by decide)⟩⟩

/-- C1 (counterexample): on a document whose path data holds a
relative-positioned move command, `parse_svg` panics — the process
aborts — and no failure value of its `anyhow::Result` return channel is
surfaced to the caller, so translation does not fail with an
inspectable UnsupportedCommand failure value. -/
theorem c1_counterexample :
    parse_svg pdRel (.ok [Event.tag "path" [("d", "m 1,2")]])
        = .panicked (.notYetSupported (.move .relative [1, 2]))
      ∧ TransOutcome.returnsFailureValue
          (parse_svg pdRel (.ok [Event.tag "path" [("d", "m 1,2")]])) = false :=
  ⟨rfl, rfl⟩

/-- C1 (amended): a command using relative positioning, or whose kind is
outside the supported table, makes the adapter hit the
`not yet supported` panic carrying the offending command, and any such
command in the first path node makes the whole translation abort as a
panic (producing no output, partial or otherwise) rather than return a
failure value. -/
theorem c1_unsupported_command_panics :
    (∀ cmd : Command, cmd.isSupported = false →
      PathSection.from_svg cmd = .error (.notYetSupported cmd))
  ∧ (∀ (pd : String → Option (List Command)) (pre : List Event)
      (attrs : List (String × String)) (rest : List Event) (d : String)
      (cmds : List Command) (c : Command),
      pre.all (fun e => ! e.isPathTag) = true →
      attrsGet attrs "d" = some d →
      pd d = some cmds →
      c ∈ cmds → c.isSupported = false →
      ∃ p, parse_svg pd (.ok (pre ++ Event.tag "path" attrs :: rest)) = .panicked p) := by
  constructor
  · exact from_svg_not_supported
  · intro pd pre attrs rest d cmds c hpre hd hpd hc hcs
    obtain ⟨p, hp⟩ := collectSections_error hc (from_svg_not_supported c hcs)
    refine ⟨p, ?_⟩
    have h1 := scanLoop_skip pd pre (Event.tag "path" attrs :: rest) hpre
    have h2 : scanLoop pd (Event.tag "path" attrs :: rest) = collectSections cmds := by
      simp [scanLoop, hd, hpd]
    simp [parse_svg, h1, h2, hp]

theorem c1_unsupported_command_panics_witness :
    (Command.isSupported (.move .relative [1, 2]) = false
      ∧ PathSection.from_svg (.move .relative [1, 2])
          = .error (.notYetSupported (.move .relative [1, 2])))
    ∧ ∃ p, parse_svg pdRel (.ok (([] : List Event) ++ Event.tag "path" [("d", "m 1,2")] :: []))
        = .panicked p :=
  ⟨⟨rfl, c1_unsupported_command_panics.1 (.move .relative [1, 2]) rfl⟩,
   c1_unsupported_command_panics.2 pdRel [] [("d", "m 1,2")] [] "m 1,2"
     [Command.move .relative [1, 2]] (Command.move .relative [1, 2])
     rfl rfl rfl (List.mem_cons_self _ _) rfl⟩

/-- C2 (counterexample): on a document whose first path-bearing node
lacks the `d` attribute, `parse_svg` panics (the `unwrap` on `None`) —
the process terminates — and no failure value of its `anyhow::Result`
return channel is surfaced to the caller, so no distinct
MissingPathData failure value exists. -/
theorem c2_counterexample :
    parse_svg pdNone (.ok [Event.tag "path" [("stroke", "none")]]) = .panicked .unwrapNone
      ∧ TransOutcome.returnsFailureValue
          (parse_svg pdNone (.ok [Event.tag "path" [("stroke", "none")]])) = false :=
  ⟨rfl, rfl⟩

/-- C2 (amended): when the first path-bearing node lacks the `d`
attribute, translation aborts with the `unwrap`-on-`None` panic
(process termination), producing no output and returning no error
value. -/
theorem c2_missing_d_panics :
    ∀ (pd : String → Option (List Command)) (pre : List Event)
      (attrs : List (String × String)) (rest : List Event),
      pre.all (fun e => ! e.isPathTag) = true →
      attrsGet attrs "d" = none →
      parse_svg pd (.ok (pre ++ Event.tag "path" attrs :: rest)) = .panicked .unwrapNone := by
  intro pd pre attrs rest hpre hd
  have h1 := scanLoop_skip pd pre (Event.tag "path" attrs :: rest) hpre
  have h2 : scanLoop pd (Event.tag "path" attrs :: rest) = .error .unwrapNone := by
    simp [scanLoop, hd]
  simp [parse_svg, h1, h2]

theorem c2_missing_d_panics_witness :
    ([Event.other].all (fun e => ! e.isPathTag) = true
      ∧ attrsGet [("stroke", "none")] "d" = none)
    ∧ parse_svg pdNone (.ok ([Event.other] ++ Event.tag "path" [("stroke", "none")] :: []))
        = .panicked .unwrapNone :=
  ⟨⟨rfl, rfl⟩, c2_missing_d_panics pdNone [Event.other] [("stroke", "none")] [] rfl rfl⟩
